import Mathlib

/- Shallow embedding of the MIDIator event-translation engine:
   src/midiator.py (class MIDIator), src/midi/midi_io.py (find_device),
   src/windows/windows_enums.py (KeyFlags, MouseFlags, MouseDirections),
   src/windows/windows_io.py (the three send_* sinks, modelled as emitted
   actions). Python integers are modelled as Int/Nat; the float arithmetic
   of the mouse pump is modelled over the rationals, with the constant
   computed by math.sin(45) kept as a parameter constrained by proved
   bounds on the real sine. -/

/-- MIDI note codes: integers in [0,127] (members of midi_enums.Notes). -/
abbrev Note := ℕ

/-- DirectInput key codes (values of windows_enums.DICodes). -/
abbrev DICode := ℕ

namespace KeyFlags

/-- windows_enums.KeyFlags.PRESS = 0x0008. -/
def PRESS : ℕ := 0x0008

/-- windows_enums.KeyFlags.RELEASE = 0x0008 | 0x0002. -/
def RELEASE : ℕ := 0x0008 ||| 0x0002

end KeyFlags

namespace MouseFlags

/-- windows_enums.MouseFlags.MOVE = 0x0001. -/
def MOVE : ℕ := 0x0001

/-- windows_enums.MouseFlags.LEFT_CLICK = 0x0002. -/
def LEFT_CLICK : ℕ := 0x0002

/-- windows_enums.MouseFlags.LEFT_RELEASE = 0x0004. -/
def LEFT_RELEASE : ℕ := 0x0004

/-- windows_enums.MouseFlags.RIGHT_CLICK = 0x0008. -/
def RIGHT_CLICK : ℕ := 0x0008

/-- windows_enums.MouseFlags.RIGHT_RELEASE = 0x0010. -/
def RIGHT_RELEASE : ℕ := 0x0010

end MouseFlags

namespace MouseDirections

/-- windows_enums.MouseDirections.LEFT = (-1, 0). -/
def LEFT : ℤ × ℤ := (-1, 0)

/-- windows_enums.MouseDirections.RIGHT = (1, 0). -/
def RIGHT : ℤ × ℤ := (1, 0)

/-- windows_enums.MouseDirections.UP = (0, -1). -/
def UP : ℤ × ℤ := (0, -1)

/-- windows_enums.MouseDirections.DOWN = (0, 1). -/
def DOWN : ℤ × ℤ := (0, 1)

/-- windows_enums.MouseDirections.STAY = (0, 0). -/
def STAY : ℤ × ℤ := (0, 0)

/-- The five members of the MouseDirections enum, in declaration order. -/
def members : List (ℤ × ℤ) := [LEFT, RIGHT, UP, DOWN, STAY]

end MouseDirections

/-- Message types delivered by a mido input port (mido message type
strings, as an enumeration; the string name of each is given by
MidiType.toStr below). -/
inductive MidiType where
  | note_off
  | note_on
  | polytouch
  | control_change
  | program_change
  | aftertouch
  | pitchwheel
  | sysex
  | quarter_frame
  | songpos
  | song_select
  | tune_request
  | clock
  | start
  | continue_
  | stop
  | active_sensing
  | reset
deriving DecidableEq

/-- The mido type string of each message type. -/
def MidiType.toStr : MidiType → String
  | .note_off => "note_off"
  | .note_on => "note_on"
  | .polytouch => "polytouch"
  | .control_change => "control_change"
  | .program_change => "program_change"
  | .aftertouch => "aftertouch"
  | .pitchwheel => "pitchwheel"
  | .sysex => "sysex"
  | .quarter_frame => "quarter_frame"
  | .songpos => "songpos"
  | .song_select => "song_select"
  | .tune_request => "tune_request"
  | .clock => "clock"
  | .start => "start"
  | .continue_ => "continue"
  | .stop => "stop"
  | .active_sensing => "active_sensing"
  | .reset => "reset"

/-- Python substring containment: sub in s. -/
def str_contains (s sub : String) : Bool :=
  decide (sub.toList <:+: s.toList)

/-- The dispatcher's type test: the Python expression
"note_" in message.type (midiator.py line 85). -/
def hasNoteUnder (t : MidiType) : Bool :=
  str_contains t.toStr "note_"

/-- A mido MIDI message, as consumed by MIDIator.triage_message: its
type, note and channel (velocity is never read by the engine). -/
structure Message where
  type : MidiType
  note : Note
  channel : ℕ
deriving DecidableEq

/-- An input-injection action emitted to the Windows sink, named after
the src/windows/windows_io.py function the engine would call. -/
inductive Act where
  | send_key_event (key : DICode) (flag : ℕ)
  | send_mouse_movement_event (x y : ℤ)
  | send_mouse_button_event (flag : ℕ)
deriving DecidableEq

/-- A log message printed by MIDIator.log, one constructor per call
site in midiator.py's message handlers. -/
inductive Log where
  | received (note : Note)
  | key (code : DICode)
  | mouse_direction (d : ℤ × ℤ)
  | mouse_button (flag : ℕ)
  | not_bound
deriving DecidableEq

/-- The immutable part of a MIDIator instance: the three binding
dictionaries (modelled as partial maps on notes), the channel and the
sensitivity, as stored by MIDIator.__init__. The mutable
mouse_vector is passed explicitly to the functions below. -/
structure MIDIator where
  key_binds : Note → Option DICode
  mouse_movement_binds : Note → Option (ℤ × ℤ)
  mouse_button_binds : Note → Option (ℕ × ℕ)
  midi_channel : ℕ
  mouse_sensitivity : ℤ

namespace MIDIator

/-- MIDIator.translate_keystroke (midiator.py lines 98-108): look up
the DirectInput code, log the key name on note_on, and send a key
event with PRESS on note_on and RELEASE otherwise. The none branch is
unreachable from triage_message, which dispatches here only on a
key_binds hit. -/
def translate_keystroke (c : MIDIator) (m : Message) : List Act × List Log :=
  match c.key_binds m.note with
  | some direct_input_key =>
      let logs := if m.type = MidiType.note_on then [Log.key direct_input_key] else []
      let flag := if m.type = MidiType.note_on then KeyFlags.PRESS else KeyFlags.RELEASE
      ([Act.send_key_event direct_input_key flag], logs)
  | none => ([], [])

/-- MIDIator.translate_mouse_move (midiator.py lines 110-121): look up
the direction (x, y), log it on note_on, and add
polarity * x * sensitivity and polarity * y * sensitivity to the two
components of the mouse vector, with polarity 1 on note_on and -1
otherwise. The none branch is unreachable from triage_message. -/
def translate_mouse_move (c : MIDIator) (m : Message) (mouse_vector : ℤ × ℤ) :
    (ℤ × ℤ) × List Log :=
  match c.mouse_movement_binds m.note with
  | some d =>
      let logs := if m.type = MidiType.note_on then [Log.mouse_direction d] else []
      let x := d.1
      let y := d.2
      let polarity : ℤ := if m.type = MidiType.note_on then 1 else -1
      ((mouse_vector.1 + polarity * x * c.mouse_sensitivity,
        mouse_vector.2 + polarity * y * c.mouse_sensitivity), logs)
  | none => (mouse_vector, [])

/-- MIDIator.translate_mouse_button (midiator.py lines 123-133): look
up the (click_flag, release_flag) pair, log the click flag on note_on,
and send a mouse button event with the click flag on note_on and the
release flag otherwise. The none branch is unreachable from
triage_message. -/
def translate_mouse_button (c : MIDIator) (m : Message) : List Act × List Log :=
  match c.mouse_button_binds m.note with
  | some p =>
      let logs := if m.type = MidiType.note_on then [Log.mouse_button p.1] else []
      let flag := if m.type = MidiType.note_on then p.1 else p.2
      ([Act.send_mouse_button_event flag], logs)
  | none => ([], [])

/-- MIDIator.triage_message (midiator.py lines 80-96): drop the
message unless its channel equals midi_channel and its type contains
"note_"; log the received note on note_on; then dispatch to the first
of key_binds, mouse_movement_binds, mouse_button_binds containing the
note, logging "Key not bound." on note_on when none does. Returns the
new mouse vector, the emitted actions and the log lines, in order. -/
def triage_message (c : MIDIator) (m : Message) (mouse_vector : ℤ × ℤ) :
    (ℤ × ℤ) × List Act × List Log :=
  if m.channel = c.midi_channel ∧ hasNoteUnder m.type = true then
    let logs0 := if m.type = MidiType.note_on then [Log.received m.note] else []
    if (c.key_binds m.note).isSome then
      let r := translate_keystroke c m
      (mouse_vector, r.1, logs0 ++ r.2)
    else if (c.mouse_movement_binds m.note).isSome then
      let r := translate_mouse_move c m mouse_vector
      (r.1, [], logs0 ++ r.2)
    else if (c.mouse_button_binds m.note).isSome then
      let r := translate_mouse_button c m
      (mouse_vector, r.1, logs0 ++ r.2)
    else if m.type = MidiType.note_on then
      (mouse_vector, [], logs0 ++ [Log.not_bound])
    else
      (mouse_vector, [], logs0)
  else
    (mouse_vector, [], [])

/-- The mouse vector after a sequence of messages has been triaged in
order (the event-consumption loop of MIDIator.start, projected to the
accumulator state). -/
def apply_messages (c : MIDIator) (msgs : List Message) (mouse_vector : ℤ × ℤ) : ℤ × ℤ :=
  msgs.foldl (fun v m => (triage_message c m v).1) mouse_vector

end MIDIator

/-- Python int() applied to a float: truncation toward zero. -/
def truncToZero (q : ℚ) : ℤ :=
  if 0 ≤ q then ⌊q⌋ else ⌈q⌉

/-- One iteration of the loop body of MIDIator.mouse_handler
(midiator.py lines 69-77), computing the (x, y) passed to
send_mouse_movement_event: read the vector, scale both components by
sin_45 when their magnitudes are equal and x is non-zero, then
truncate to ints. sin_45 is the constant the Python code computes
once as math.sin(45) before the loop; math.sin works in radians, so
its value is sin of 45 radians (about 0.8509), not sin 45 degrees.
It is kept as a parameter here, constrained by the bounds proved for
Real.sin 45 below. -/
def mouse_handler_tick (sin_45 : ℚ) (mouse_vector : ℤ × ℤ) : ℤ × ℤ :=
  let x := mouse_vector.1
  let y := mouse_vector.2
  if x.natAbs = y.natAbs ∧ x ≠ 0 then
    (truncToZero ((x : ℚ) * sin_45), truncToZero ((y : ℚ) * sin_45))
  else
    (x, y)

/-- n iterations of the MIDIator.mouse_handler loop starting from a
given shared mouse vector, collecting the emitted movement actions
and threading the shared-state vector through (the loop body never
writes self.mouse_vector: lines 70-77 only read it into locals). -/
def mouse_handler_run (sin_45 : ℚ) : ℕ → (ℤ × ℤ) → List Act × (ℤ × ℤ)
  | 0, mouse_vector => ([], mouse_vector)
  | n + 1, mouse_vector =>
      let t := mouse_handler_tick sin_45 mouse_vector
      let rest := mouse_handler_run sin_45 n mouse_vector
      (Act.send_mouse_movement_event t.1 t.2 :: rest.1, rest.2)

/-- The device-name test of find_device (midi_io.py line 13): the
Python expression identifier.lower() in name.lower(). Python
str.lower() maps each character to its lower-case form; it is
modelled by mapping Char.toLower over the characters, which agrees
with it on ASCII port names. -/
def matches_identifier (identifier name : String) : Bool :=
  decide (identifier.toList.map Char.toLower <:+: name.toList.map Char.toLower)

/-- find_device (midi_io.py lines 5-23), projected to port selection:
scan the enumerated input names in order and return the first whose
lowered name contains the lowered identifier; none models the
fall-through to the try/else branch, which prints an error and calls
exit(1). -/
def find_device (identifier : String) : List String → Option String
  | [] => none
  | name :: rest =>
      if matches_identifier identifier name then some name
      else find_device identifier rest

/-- Outcome of MIDIator.__init__ as far as device resolution goes:
either the engine is constructed (port chosen, mouse vector
initialised to (0, 0), bindings not yet consulted) or the process has
exited with the given status. -/
inductive InitResult where
  | started (port : String) (mouse_vector : ℤ × ℤ)
  | exited (status : ℕ)
deriving DecidableEq

/-- Device resolution inside MIDIator.__init__ (midiator.py line 33
calling find_device): a failed lookup exits the process with status 1
before any binding is ever resolved against an event. -/
def midiator_init (identifier : String) (ports : List String) : InitResult :=
  match find_device identifier ports with
  | some p => InitResult.started p (0, 0)
  | none => InitResult.exited 1

/- ------------------------------------------------------------------ -/
/- Helper lemmas and example configurations                           -/
/- ------------------------------------------------------------------ -/

/-- The substring test "note_" in message.type passes exactly for the
note_on and note_off message types. -/
theorem hasNoteUnder_iff (t : MidiType) :
    hasNoteUnder t = true ↔ t = MidiType.note_on ∨ t = MidiType.note_off := by
  cases t <;> decide

theorem hasNoteUnder_on : hasNoteUnder MidiType.note_on = true := by decide

theorem hasNoteUnder_off : hasNoteUnder MidiType.note_off = true := by decide

/-- A configuration in the shape of the default one at the bottom of
midiator.py: one key-bound note (FS3 = 54 to W = 0x11), the four
cardinal movement notes 64-67, a STAY movement binding on 70, and
button bindings on 62, 69 and (shadowed) 70. -/
def exampleConfig : MIDIator where
  key_binds n := if n = 54 then some 17 else none
  mouse_movement_binds n :=
    if n = 64 then some MouseDirections.LEFT
    else if n = 65 then some MouseDirections.DOWN
    else if n = 66 then some MouseDirections.UP
    else if n = 67 then some MouseDirections.RIGHT
    else if n = 70 then some MouseDirections.STAY
    else none
  mouse_button_binds n :=
    if n = 62 ∨ n = 70 then some (MouseFlags.LEFT_CLICK, MouseFlags.LEFT_RELEASE)
    else if n = 69 then some (MouseFlags.RIGHT_CLICK, MouseFlags.RIGHT_RELEASE)
    else none
  midi_channel := 0
  mouse_sensitivity := 4

/- ------------------------------------------------------------------ -/
/- Claims                                                             -/
/- ------------------------------------------------------------------ -/

/-- C4: an event whose channel differs from the configured channel, or
whose type is neither note_on nor note_off, is dropped by
triage_message: no action, no log, and the mouse vector unchanged. -/
theorem triage_filter_no_effect (c : MIDIator) (m : Message) (v : ℤ × ℤ)
    (h : m.channel ≠ c.midi_channel
        ∨ (m.type ≠ MidiType.note_on ∧ m.type ≠ MidiType.note_off)) :
    MIDIator.triage_message c m v = (v, [], []) := by
  have hcond : ¬ (m.channel = c.midi_channel ∧ hasNoteUnder m.type = true) := by
    rcases h with h | h
    · exact fun hp => h hp.1
    · intro hp
      rcases (hasNoteUnder_iff m.type).mp hp.2 with h1 | h1
      · exact h.1 h1
      · exact h.2 h1
  simp only [MIDIator.triage_message, if_neg hcond]

/-- C4 witness: a control_change message on the configured channel is
dropped with no effect. -/
theorem triage_filter_no_effect_witness :
    MIDIator.triage_message exampleConfig ⟨MidiType.control_change, 60, 0⟩ (5, 7)
      = ((5, 7), [], []) :=
  triage_filter_no_effect exampleConfig ⟨MidiType.control_change, 60, 0⟩ (5, 7)
    (Or.inr ⟨by decide, by decide⟩)

/-- C5: a note absent from all three binding tables produces zero
actions for both note_on and note_off, and the "Key not bound."
diagnostic is logged only for note_on. -/
theorem triage_unbound_note (c : MIDIator) (n : Note) (v : ℤ × ℤ)
    (hk : c.key_binds n = none) (hm : c.mouse_movement_binds n = none)
    (hb : c.mouse_button_binds n = none) :
    MIDIator.triage_message c ⟨MidiType.note_on, n, c.midi_channel⟩ v
        = (v, [], [Log.received n, Log.not_bound])
    ∧ MIDIator.triage_message c ⟨MidiType.note_off, n, c.midi_channel⟩ v
        = (v, [], []) := by
  constructor <;>
    simp [MIDIator.triage_message, hk, hm, hb, hasNoteUnder_on, hasNoteUnder_off]

/-- C5 witness: note 99 is unbound in exampleConfig; note_on logs the
diagnostic and emits nothing, note_off does nothing at all. -/
theorem triage_unbound_note_witness :
    MIDIator.triage_message exampleConfig ⟨MidiType.note_on, 99, 0⟩ (0, 0)
        = ((0, 0), [], [Log.received 99, Log.not_bound])
    ∧ MIDIator.triage_message exampleConfig ⟨MidiType.note_off, 99, 0⟩ (0, 0)
        = ((0, 0), [], []) :=
  triage_unbound_note exampleConfig 99 (0, 0) (by decide) (by decide) (by decide)

/-- C3: for an event passing the channel/type filter, triage_message
consults key_binds first, then mouse_movement_binds, then
mouse_button_binds; only the first matching handler runs (a key
binding shadows any movement binding, a movement binding shadows any
button binding), and at most one action is ever emitted. -/
theorem triage_priority_order (c : MIDIator) (m : Message) (v : ℤ × ℤ)
    (hch : m.channel = c.midi_channel)
    (hty : m.type = MidiType.note_on ∨ m.type = MidiType.note_off) :
    (∀ k, c.key_binds m.note = some k →
        MIDIator.triage_message c m v
          = (v, [Act.send_key_event k
                  (if m.type = MidiType.note_on then KeyFlags.PRESS else KeyFlags.RELEASE)],
             (if m.type = MidiType.note_on then [Log.received m.note] else [])
               ++ (if m.type = MidiType.note_on then [Log.key k] else [])))
  ∧ (∀ d, c.key_binds m.note = none → c.mouse_movement_binds m.note = some d →
        MIDIator.triage_message c m v
          = ((v.1 + (if m.type = MidiType.note_on then 1 else -1) * d.1 * c.mouse_sensitivity,
              v.2 + (if m.type = MidiType.note_on then 1 else -1) * d.2 * c.mouse_sensitivity),
             [],
             (if m.type = MidiType.note_on then [Log.received m.note] else [])
               ++ (if m.type = MidiType.note_on then [Log.mouse_direction d] else [])))
  ∧ (∀ p, c.key_binds m.note = none → c.mouse_movement_binds m.note = none →
        c.mouse_button_binds m.note = some p →
        MIDIator.triage_message c m v
          = (v, [Act.send_mouse_button_event (if m.type = MidiType.note_on then p.1 else p.2)],
             (if m.type = MidiType.note_on then [Log.received m.note] else [])
               ++ (if m.type = MidiType.note_on then [Log.mouse_button p.1] else [])))
  ∧ (MIDIator.triage_message c m v).2.1.length ≤ 1 := by
  refine ⟨?_, ?_, ?_, ?_⟩
  · intro k hk
    rcases hty with h | h <;>
      simp [MIDIator.triage_message, MIDIator.translate_keystroke, hch, hk,
        hasNoteUnder_on, hasNoteUnder_off, h]
  · intro d hk hd
    rcases hty with h | h <;>
      simp [MIDIator.triage_message, MIDIator.translate_mouse_move, hch, hk, hd,
        hasNoteUnder_on, hasNoteUnder_off, h]
  · intro p hk hd hb
    rcases hty with h | h <;>
      simp [MIDIator.triage_message, MIDIator.translate_mouse_button, hch, hk, hd, hb,
        hasNoteUnder_on, hasNoteUnder_off, h]
  · rcases hk : c.key_binds m.note with _ | k
    · rcases hd : c.mouse_movement_binds m.note with _ | d
      · rcases hb : c.mouse_button_binds m.note with _ | p
        · rcases hty with h | h <;>
            simp [MIDIator.triage_message, hch, hk, hd, hb,
              hasNoteUnder_on, hasNoteUnder_off, h]
        · rcases hty with h | h <;>
            simp [MIDIator.triage_message, MIDIator.translate_mouse_button, hch, hk, hd, hb,
              hasNoteUnder_on, hasNoteUnder_off, h]
      · rcases hty with h | h <;>
          simp [MIDIator.triage_message, MIDIator.translate_mouse_move, hch, hk, hd,
            hasNoteUnder_on, hasNoteUnder_off, h]
    · rcases hty with h | h <;>
        simp [MIDIator.triage_message, MIDIator.translate_keystroke, hch, hk,
          hasNoteUnder_on, hasNoteUnder_off, h]

/-- C3 witness: note 64 is movement-bound (and not key-bound) in
exampleConfig, so a note_on dispatches only to the movement handler:
vector updated by LEFT times sensitivity, no action emitted. -/
theorem triage_priority_order_witness :
    MIDIator.triage_message exampleConfig ⟨MidiType.note_on, 64, 0⟩ (0, 0)
      = ((-4, 0), [], [Log.received 64, Log.mouse_direction MouseDirections.LEFT]) := by
  have h := triage_priority_order exampleConfig ⟨MidiType.note_on, 64, 0⟩ (0, 0) rfl (Or.inl rfl)
  have h2 := h.2.1 MouseDirections.LEFT (by decide) (by decide)
  rw [h2]
  norm_num [MouseDirections.LEFT, exampleConfig]

/-- C6: when the two components of the mouse vector differ in
magnitude, a pump tick applies no scaling and emits the components
unmodified; in particular the cardinal vector (4, 0) is emitted as
(4, 0). -/
theorem pump_cardinal_unmodified (sin_45 : ℚ) (v : ℤ × ℤ)
    (h : v.1.natAbs ≠ v.2.natAbs) :
    mouse_handler_tick sin_45 v = v ∧ mouse_handler_tick sin_45 (4, 0) = (4, 0) := by
  constructor
  · have hcond : ¬ (v.1.natAbs = v.2.natAbs ∧ v.1 ≠ 0) := fun hp => h hp.1
    simp only [mouse_handler_tick, if_neg hcond]
  · norm_num [mouse_handler_tick]

/-- C6 witness: at the pump constant's nominal value and vector
(4, 0), the tick emits (4, 0). -/
theorem pump_cardinal_unmodified_witness :
    mouse_handler_tick 0.8509035245341184 (4, 0) = (4, 0) :=
  (pump_cardinal_unmodified 0.8509035245341184 (4, 0) (by decide)).1

/-- C7: n iterations of the mouse_handler loop starting from a shared
vector v leave v unchanged (the loop body only reads it into locals)
and emit the same movement action every tick, each recomputed from
the live vector alone, with no carried remainder. -/
theorem pump_preserves_accumulator (sin_45 : ℚ) (n : ℕ) (v : ℤ × ℤ) :
    mouse_handler_run sin_45 n v
      = (List.replicate n
          (Act.send_mouse_movement_event
            (mouse_handler_tick sin_45 v).1 (mouse_handler_tick sin_45 v).2), v) := by
  induction n with
  | zero => simp [mouse_handler_run]
  | succ k ih => simp [mouse_handler_run, ih, List.replicate_succ]

/-- Net change triage_message applies to the mouse vector for a
note_on on the given note on the configured channel: zero unless the
note reaches the movement handler (a key binding shadows it), and the
bound direction times the sensitivity when it does. -/
def move_delta (c : MIDIator) (n : Note) : ℤ × ℤ :=
  if (c.key_binds n).isSome then (0, 0)
  else
    match c.mouse_movement_binds n with
    | some d => (d.1 * c.mouse_sensitivity, d.2 * c.mouse_sensitivity)
    | none => (0, 0)

/-- The vector update of triage_message commutes with translation:
every branch either keeps the vector or adds a quantity independent
of it. -/
theorem triage_fst_add (c : MIDIator) (m : Message) (v d : ℤ × ℤ) :
    (MIDIator.triage_message c m (v + d)).1 = (MIDIator.triage_message c m v).1 + d := by
  by_cases hfil : m.channel = c.midi_channel ∧ hasNoteUnder m.type = true
  · by_cases hk : (c.key_binds m.note).isSome
    · simp [MIDIator.triage_message, hfil, hk]
    · rcases hd : c.mouse_movement_binds m.note with _ | dd
      · by_cases hb : (c.mouse_button_binds m.note).isSome
        · simp [MIDIator.triage_message, hfil, hk, hd, hb]
        · by_cases ht : m.type = MidiType.note_on <;>
            simp [MIDIator.triage_message, hfil, hk, hd, hb, ht, hasNoteUnder_on]
      · simp only [MIDIator.triage_message, if_pos hfil, hk, Bool.false_eq_true,
          if_false, MIDIator.translate_mouse_move, hd, Option.isSome_some, if_true]
        apply Prod.ext <;> simp [Prod.ext_iff] <;> ring
  · simp [MIDIator.triage_message, hfil]

/-- Folding triage_message over any message list commutes with
translating the starting vector. -/
theorem apply_messages_add (c : MIDIator) (msgs : List Message) (v d : ℤ × ℤ) :
    MIDIator.apply_messages c msgs (v + d) = MIDIator.apply_messages c msgs v + d := by
  induction msgs generalizing v with
  | nil => rfl
  | cons m rest ih =>
      show MIDIator.apply_messages c rest ((MIDIator.triage_message c m (v + d)).1)
          = MIDIator.apply_messages c rest ((MIDIator.triage_message c m v).1) + d
      rw [triage_fst_add, ih]

/-- A note_on on the configured channel adds move_delta to the
vector. -/
theorem triage_note_on_fst (c : MIDIator) (n : Note) (v : ℤ × ℤ) :
    (MIDIator.triage_message c ⟨MidiType.note_on, n, c.midi_channel⟩ v).1
      = v + move_delta c n := by
  unfold move_delta
  by_cases hk : (c.key_binds n).isSome
  · simp [MIDIator.triage_message, hasNoteUnder_on, hk, Prod.ext_iff]
  · rcases hd : c.mouse_movement_binds n with _ | dd
    · by_cases hb : (c.mouse_button_binds n).isSome <;>
        simp [MIDIator.triage_message, hasNoteUnder_on, hk, hd, hb, Prod.ext_iff]
    · simp [MIDIator.triage_message, MIDIator.translate_mouse_move, hasNoteUnder_on,
        hk, hd, Prod.ext_iff]

/-- A note_off on the configured channel subtracts move_delta from
the vector. -/
theorem triage_note_off_fst (c : MIDIator) (n : Note) (v : ℤ × ℤ) :
    (MIDIator.triage_message c ⟨MidiType.note_off, n, c.midi_channel⟩ v).1
      = v - move_delta c n := by
  unfold move_delta
  by_cases hk : (c.key_binds n).isSome
  · simp [MIDIator.triage_message, hasNoteUnder_off, hk, Prod.ext_iff]
  · rcases hd : c.mouse_movement_binds n with _ | dd
    · by_cases hb : (c.mouse_button_binds n).isSome <;>
        simp [MIDIator.triage_message, hasNoteUnder_off, hk, hd, hb, Prod.ext_iff]
    · simp [MIDIator.triage_message, MIDIator.translate_mouse_move, hasNoteUnder_off,
        hk, hd, Prod.ext_iff, sub_eq_add_neg]

/-- C2: for a movement-bound note, a note_on followed (after any
interleaved messages) by the matching note_off leaves the mouse
vector exactly where the interleaved messages alone would have left
it: the off subtracts precisely what the on added. -/
theorem movement_on_off_cancels (c : MIDIator) (n : Note) (msgs : List Message) (v : ℤ × ℤ)
    (_hmove : (c.mouse_movement_binds n).isSome) :
    MIDIator.apply_messages c
        (⟨MidiType.note_on, n, c.midi_channel⟩ ::
          (msgs ++ [⟨MidiType.note_off, n, c.midi_channel⟩])) v
      = MIDIator.apply_messages c msgs v := by
  have hsnoc : ∀ (m : Message) (l : List Message) (w : ℤ × ℤ),
      MIDIator.apply_messages c (l ++ [m]) w
        = (MIDIator.triage_message c m (MIDIator.apply_messages c l w)).1 := by
    intro m l w
    simp [MIDIator.apply_messages, List.foldl_append]
  show MIDIator.apply_messages c (msgs ++ [⟨MidiType.note_off, n, c.midi_channel⟩])
      ((MIDIator.triage_message c ⟨MidiType.note_on, n, c.midi_channel⟩ v).1)
    = MIDIator.apply_messages c msgs v
  rw [hsnoc, triage_note_on_fst, apply_messages_add, triage_note_off_fst,
    add_sub_cancel_right]

/-- C2 witness: in exampleConfig, note 64 is movement-bound; a
note_on, an interleaved unrelated note_on, then the note_off leave
the vector exactly where the interleaved message alone leaves it. -/
theorem movement_on_off_cancels_witness :
    MIDIator.apply_messages exampleConfig
        (⟨MidiType.note_on, 64, 0⟩ ::
          ([⟨MidiType.note_on, 65, 0⟩] ++ [⟨MidiType.note_off, 64, 0⟩])) (0, 0)
      = MIDIator.apply_messages exampleConfig [⟨MidiType.note_on, 65, 0⟩] (0, 0) :=
  movement_on_off_cancels exampleConfig 64 [⟨MidiType.note_on, 65, 0⟩] (0, 0) (by decide)

/-- Each triage_message step keeps both vector components divisible
by the sensitivity: every branch adds polarity * component *
sensitivity or nothing. -/
theorem triage_fst_dvd (c : MIDIator) (m : Message) (v : ℤ × ℤ)
    (h1 : c.mouse_sensitivity ∣ v.1) (h2 : c.mouse_sensitivity ∣ v.2) :
    c.mouse_sensitivity ∣ (MIDIator.triage_message c m v).1.1
  ∧ c.mouse_sensitivity ∣ (MIDIator.triage_message c m v).1.2 := by
  by_cases hfil : m.channel = c.midi_channel ∧ hasNoteUnder m.type = true
  · by_cases hk : (c.key_binds m.note).isSome
    · simp [MIDIator.triage_message, hfil, hk]; exact ⟨h1, h2⟩
    · rcases hd : c.mouse_movement_binds m.note with _ | dd
      · by_cases hb : (c.mouse_button_binds m.note).isSome
        · simp [MIDIator.triage_message, hfil, hk, hd, hb]; exact ⟨h1, h2⟩
        · by_cases ht : m.type = MidiType.note_on <;>
            simp [MIDIator.triage_message, hfil, hk, hd, hb, ht, hasNoteUnder_on] <;>
            exact ⟨h1, h2⟩
      · simp only [MIDIator.triage_message, if_pos hfil, hk, Bool.false_eq_true,
          if_false, MIDIator.translate_mouse_move, hd, Option.isSome_some, if_true]
        constructor
        · exact dvd_add h1 (Dvd.dvd.mul_left (dvd_refl c.mouse_sensitivity) _)
        · exact dvd_add h2 (Dvd.dvd.mul_left (dvd_refl c.mouse_sensitivity) _)
  · simp [MIDIator.triage_message, hfil]; exact ⟨h1, h2⟩

/-- Divisibility by the sensitivity is preserved along any message
sequence. -/
theorem apply_messages_dvd (c : MIDIator) (msgs : List Message) (v : ℤ × ℤ)
    (h1 : c.mouse_sensitivity ∣ v.1) (h2 : c.mouse_sensitivity ∣ v.2) :
    c.mouse_sensitivity ∣ (MIDIator.apply_messages c msgs v).1
  ∧ c.mouse_sensitivity ∣ (MIDIator.apply_messages c msgs v).2 := by
  induction msgs generalizing v with
  | nil => exact ⟨h1, h2⟩
  | cons m rest ih =>
      have hstep := triage_fst_dvd c m v h1 h2
      exact ih ((MIDIator.triage_message c m v).1) hstep.1 hstep.2

/-- C9: starting from the initial vector (0, 0), after any dispatched
message sequence both components of the mouse vector are integer
multiples of the sensitivity; every update adds or subtracts a bound
direction component (one of -1, 0, 1, per MouseDirections) times the
sensitivity. -/
theorem accumulator_multiple_of_sensitivity (c : MIDIator) (msgs : List Message)
    (_hdir : ∀ n d, c.mouse_movement_binds n = some d → d ∈ MouseDirections.members) :
    c.mouse_sensitivity ∣ (MIDIator.apply_messages c msgs (0, 0)).1
  ∧ c.mouse_sensitivity ∣ (MIDIator.apply_messages c msgs (0, 0)).2 :=
  apply_messages_dvd c msgs (0, 0) (dvd_zero _) (dvd_zero _)

/-- A configuration binding every note to the LEFT direction, used to
instantiate the direction-membership hypothesis concretely. -/
def allLeftConfig : MIDIator :=
  ⟨fun _ => none, fun _ => some MouseDirections.LEFT, fun _ => none, 0, 4⟩

/-- C9 witness: in allLeftConfig every bound direction is a
MouseDirections member, and after one note_on both components of the
vector are multiples of the sensitivity 4. -/
theorem accumulator_multiple_of_sensitivity_witness :
    (4 : ℤ) ∣ (MIDIator.apply_messages allLeftConfig [⟨MidiType.note_on, 60, 0⟩] (0, 0)).1
  ∧ (4 : ℤ) ∣ (MIDIator.apply_messages allLeftConfig [⟨MidiType.note_on, 60, 0⟩] (0, 0)).2 :=
  accumulator_multiple_of_sensitivity allLeftConfig [⟨MidiType.note_on, 60, 0⟩]
    (fun n d h => by
      injection h with h
      rw [← h]
      decide)

/-- C10: the direction enum admits the fifth member STAY = (0, 0)
beyond the four cardinal directions; a note movement-bound to STAY is
handled by the movement handler for both note_on and note_off, the
vector is left exactly unchanged, and no action is emitted even when
the note also has a button binding (the movement match shadows it). -/
theorem stay_direction_binding (c : MIDIator) (n : Note) (v : ℤ × ℤ)
    (hk : c.key_binds n = none)
    (hm : c.mouse_movement_binds n = some MouseDirections.STAY) :
    MouseDirections.STAY = (0, 0)
  ∧ MouseDirections.STAY ∈ MouseDirections.members
  ∧ MIDIator.triage_message c ⟨MidiType.note_on, n, c.midi_channel⟩ v
      = (v, [], [Log.received n, Log.mouse_direction MouseDirections.STAY])
  ∧ MIDIator.triage_message c ⟨MidiType.note_off, n, c.midi_channel⟩ v
      = (v, [], []) := by
  refine ⟨rfl, by decide, ?_, ?_⟩ <;>
    simp [MIDIator.triage_message, MIDIator.translate_mouse_move, hk, hm,
      hasNoteUnder_on, hasNoteUnder_off, MouseDirections.STAY]

/-- C10 witness: note 70 in exampleConfig is bound to STAY in the
movement table and also has a button binding; both events leave the
vector (3, 5) unchanged and emit no action. -/
theorem stay_direction_binding_witness :
    MIDIator.triage_message exampleConfig ⟨MidiType.note_on, 70, 0⟩ (3, 5)
        = ((3, 5), [], [Log.received 70, Log.mouse_direction MouseDirections.STAY])
    ∧ MIDIator.triage_message exampleConfig ⟨MidiType.note_off, 70, 0⟩ (3, 5)
        = ((3, 5), [], []) :=
  have h := stay_direction_binding exampleConfig 70 (3, 5) (by decide) (by decide)
  ⟨h.2.2.1, h.2.2.2⟩

/-- If no enumerated port name matches the identifier, the scan in
find_device falls through to the try/else branch. -/
theorem find_device_eq_none (identifier : String) (ports : List String)
    (h : ∀ q ∈ ports, matches_identifier identifier q = false) :
    find_device identifier ports = none := by
  induction ports with
  | nil => rfl
  | cons p rest ih =>
      have hp := h p (List.mem_cons_self p rest)
      simp only [find_device, hp, Bool.false_eq_true, if_false]
      exact ih (fun q hq => h q (List.mem_cons_of_mem p hq))

/-- C8: find_device returns the first enumerated port whose name
contains the identifier case-insensitively, and when no port matches,
MIDIator.__init__ exits the process with status 1 before any binding
logic can run. -/
theorem find_device_first_match_or_exit (identifier p : String) (pre post : List String)
    (hpre : ∀ q ∈ pre, matches_identifier identifier q = false)
    (hp : matches_identifier identifier p = true) :
    find_device identifier (pre ++ p :: post) = some p
  ∧ ∀ ports : List String, (∀ q ∈ ports, matches_identifier identifier q = false) →
      midiator_init identifier ports = InitResult.exited 1 := by
  constructor
  · induction pre with
    | nil => simp [find_device, hp]
    | cons q rest ih =>
        have hq := hpre q (List.mem_cons_self q rest)
        simp only [List.cons_append, find_device, hq, Bool.false_eq_true, if_false]
        exact ih (fun r hr => hpre r (List.mem_cons_of_mem q hr))
  · intro ports hall
    unfold midiator_init
    rw [find_device_eq_none identifier ports hall]

/-- C8 witness: the identifier "Casio" skips a non-matching port and
selects "Casio USB MIDI" (case-insensitive substring match), and with
no matching port the constructor exits with status 1. -/
theorem find_device_first_match_or_exit_witness :
    find_device "Casio" ["Midi Through:Midi Through Port-0", "Casio USB MIDI", "Other Device"]
        = some "Casio USB MIDI"
    ∧ midiator_init "Casio" ["Midi Through:Midi Through Port-0"] = InitResult.exited 1 :=
  have h := find_device_first_match_or_exit "Casio" "Casio USB MIDI"
    ["Midi Through:Midi Through Port-0"] ["Other Device"] (by decide) (by decide)
  ⟨h.1, h.2 ["Midi Through:Midi Through Port-0"] (by decide)⟩

/-- Bounds on the constant the Python code computes: math.sin takes
radians, so sin(45) is the sine of 45 radians, which lies strictly
between 3/4 and 1 (it is about 0.8509, not sin of 45 degrees, which
is about 0.7071). -/
theorem sin_45_radians_bounds : 3 / 4 < Real.sin 45 ∧ Real.sin 45 < 1 := by
  have hpl : (3.141592 : ℝ) < Real.pi := Real.pi_gt_d6
  have hpu : Real.pi < 3.141593 := Real.pi_lt_d6
  have h45 : Real.sin 45 = Real.sin (45 - 14 * Real.pi) := by
    have h := Real.sin_add_int_mul_two_pi (45 - 14 * Real.pi) 7
    rw [show (45 : ℝ) - 14 * Real.pi + (7 : ℤ) * (2 * Real.pi) = 45 from by push_cast; ring] at h
    exact h
  have hx1 : (1 : ℝ) < 45 - 14 * Real.pi := by nlinarith
  have hx2 : 45 - 14 * Real.pi < Real.pi / 2 := by nlinarith
  have hmem1 : (1 : ℝ) ∈ Set.Icc (-(Real.pi / 2)) (Real.pi / 2) := by
    constructor <;> nlinarith
  have hmem0 : (45 - 14 * Real.pi) ∈ Set.Icc (-(Real.pi / 2)) (Real.pi / 2) := by
    constructor <;> nlinarith
  have hmem2 : (Real.pi / 2) ∈ Set.Icc (-(Real.pi / 2)) (Real.pi / 2) := by
    constructor <;> nlinarith
  constructor
  · have hs1 : Real.sin 1 < Real.sin (45 - 14 * Real.pi) :=
      Real.strictMonoOn_sin hmem1 hmem0 hx1
    have hcube : (1 : ℝ) - 1 ^ 3 / 4 < Real.sin 1 :=
      Real.sin_gt_sub_cube (by norm_num) (le_refl 1)
    rw [h45]
    nlinarith
  · have hs2 : Real.sin (45 - 14 * Real.pi) < Real.sin (Real.pi / 2) :=
      Real.strictMonoOn_sin hmem0 hmem2 hx2
    rw [h45, ← Real.sin_pi_div_two]
    exact hs2

/-- C1: on a pump tick with the accumulator at (4, 4), the code emits
MouseMove(3, 3), not the MouseMove(2, 2) the diagonal-normalization
description requires: for any value of the scale constant consistent
with math.sin(45) (sine of 45 radians, strictly between 3/4 and 1 by
sin_45_radians_bounds, hence in particular for its double
approximation), 4 times the constant lies in [3, 4), so each
component truncates to 3. -/
theorem pump_diagonal_radians_bug (sin_45 : ℚ) (h1 : 3 / 4 < sin_45) (h2 : sin_45 < 1) :
    mouse_handler_tick sin_45 (4, 4) = (3, 3)
  ∧ mouse_handler_tick sin_45 (4, 4) ≠ (2, 2) := by
  have hcond : (((4 : ℤ), (4 : ℤ)) : ℤ × ℤ).1.natAbs = (((4 : ℤ), (4 : ℤ)) : ℤ × ℤ).2.natAbs
      ∧ (((4 : ℤ), (4 : ℤ)) : ℤ × ℤ).1 ≠ 0 := by decide
  have hq : truncToZero ((((4 : ℤ), (4 : ℤ)) : ℤ × ℤ).1 * sin_45) = 3 := by
    have hc : ((((4 : ℤ), (4 : ℤ)) : ℤ × ℤ).1 : ℚ) = 4 := by norm_num
    rw [hc]
    have hge : (0 : ℚ) ≤ 4 * sin_45 := by linarith
    unfold truncToZero
    rw [if_pos hge]
    rw [Int.floor_eq_iff]
    constructor
    · push_cast
      linarith
    · push_cast
      linarith
  have hmain : mouse_handler_tick sin_45 (4, 4) = (3, 3) := by
    unfold mouse_handler_tick
    rw [if_pos hcond, hq]
  refine ⟨hmain, ?_⟩
  rw [hmain]
  decide

/-- C1 witness: at the double approximation of sin of 45 radians, the
tick on (4, 4) produces (3, 3) and not (2, 2). -/
theorem pump_diagonal_radians_bug_witness :
    (3 / 4 : ℚ) < 0.8509035245341184 ∧ (0.8509035245341184 : ℚ) < 1
  ∧ mouse_handler_tick 0.8509035245341184 (4, 4) = (3, 3)
  ∧ mouse_handler_tick 0.8509035245341184 (4, 4) ≠ (2, 2) :=
  have h := pump_diagonal_radians_bug 0.8509035245341184 (by norm_num) (by norm_num)
  ⟨by norm_num, by norm_num, h.1, h.2⟩
